import Mathlib

/-!
Shallow embedding of the etrace error library (src/lib.rs).

The library defines two error types: a typed error `Error<T>` carrying a
caller-chosen kind value, and a type-erased `WrappedError` whose kind has
been flattened to its debug-printed text.  Causes are stored as an optional
reference-counted `WrappedError`; in this value-level embedding the
reference-counted pointer is plain structural containment (sharing via `Rc`
is observationally value sharing, since nothing in the library mutates an
error after construction).  Rust's `u32` line number is modelled as `Nat`
(no arithmetic is ever performed on it) and `&'static str` as `String`.
-/

/-- DebugRepr models Rust's `Debug` trait bound `T: std::fmt::Debug`: the
text produced by the debug format specifier, used by the library for default
descriptions and for erasing a kind to text. -/
class DebugRepr (T : Type) where
  debug : T → String

/-- WrappedError models `pub struct WrappedError` (src/lib.rs lines 4-10):
the serialized error kind, a description, the position (file, line) and an
optional sub-error (`Option<Rc<WrappedError>>`). -/
inductive WrappedError : Type where
  | mk (kind_repr : String) (description : String) (file : String) (line : Nat)
      (sub_error : Option WrappedError) : WrappedError

/-- Field accessor for `WrappedError.kind_repr`. -/
def WrappedError.kind_repr : WrappedError → String
  | .mk k _ _ _ _ => k

/-- Field accessor for `WrappedError.description`. -/
def WrappedError.description : WrappedError → String
  | .mk _ d _ _ _ => d

/-- Field accessor for `WrappedError.file`. -/
def WrappedError.file : WrappedError → String
  | .mk _ _ f _ _ => f

/-- Field accessor for `WrappedError.line`. -/
def WrappedError.line : WrappedError → Nat
  | .mk _ _ _ l _ => l

/-- Field accessor for `WrappedError.sub_error`. -/
def WrappedError.sub_error : WrappedError → Option WrappedError
  | .mk _ _ _ _ s => s

/-- Error models `pub struct Error<T>` (src/lib.rs lines 42-49): the typed
error with its kind, description, position and optional erased sub-error. -/
structure Error (T : Type) where
  kind : T
  description : String
  file : String
  line : Nat
  sub_error : Option WrappedError

/-- WrappedError.fromError models `impl From<Error<T>> for WrappedError`
(src/lib.rs lines 11-19): the kind is printed to text, every other field is
moved over unchanged. -/
def WrappedError.fromError {T : Type} [DebugRepr T] (error : Error T) : WrappedError :=
  .mk (DebugRepr.debug error.kind) error.description error.file error.line error.sub_error

/-- Error.with_kind_desc models `Error::with_kind_desc` (src/lib.rs lines
55-57): a new error with an explicit description and no sub-error. -/
def Error.with_kind_desc {T : Type} (kind : T) (description : String)
    (file : String) (line : Nat) : Error T :=
  { kind := kind, description := description, file := file, line := line, sub_error := none }

/-- Error.with_kind models `Error::with_kind` (src/lib.rs lines 62-65): the
description is derived as the debug-printed form of the kind. -/
def Error.with_kind {T : Type} [DebugRepr T] (kind : T) (file : String) (line : Nat) : Error T :=
  Error.with_kind_desc kind (DebugRepr.debug kind) file line

/-- Error.propagate_with_kind_desc models `Error::propagate_with_kind_desc`
(src/lib.rs lines 71-73): a new error with an explicit description and the
given sub-error installed (wrapped in `Rc::new`, which is value identity
here). -/
def Error.propagate_with_kind_desc {T : Type} (kind : T) (description : String)
    (sub_error : WrappedError) (file : String) (line : Nat) : Error T :=
  { kind := kind, description := description, file := file, line := line,
    sub_error := some sub_error }

/-- Error.propagate_with_kind models `Error::propagate_with_kind`
(src/lib.rs lines 78-81): the description is derived as the debug-printed
form of the kind. -/
def Error.propagate_with_kind {T : Type} [DebugRepr T] (kind : T) (sub_error : WrappedError)
    (file : String) (line : Nat) : Error T :=
  Error.propagate_with_kind_desc kind (DebugRepr.debug kind) sub_error file line

/-- Error.propagate models `Error::propagate` (src/lib.rs lines 87-89): the
sub-error's kind and description are cloned (`Clone` is value duplication,
identity in this embedding) and the sub-error itself is erased via
`sub_error.into()` and installed as the cause. -/
def Error.propagate {T : Type} [DebugRepr T] (sub_error : Error T)
    (file : String) (line : Nat) : Error T :=
  Error.propagate_with_kind_desc sub_error.kind sub_error.description
    (WrappedError.fromError sub_error) file line

/-- WrappedError.render models `impl Display for WrappedError` (src/lib.rs
lines 20-26): the single-level text, then, when a sub-error exists, a
newline, two spaces, a dash and a space, and the recursively rendered
sub-error. -/
def WrappedError.render : WrappedError → String
  | .mk kind_repr description file line sub_error =>
    let head := kind_repr ++ ": " ++ description ++ " (at " ++ file ++ ":" ++
      toString line ++ ")"
    match sub_error with
    | none => head
    | some s => head ++ "\n  - " ++ s.render

/-- Error.render models `impl Display for Error<T>` (src/lib.rs lines
91-97): identical to the wrapped rendering except that the kind is printed
through its debug form on the fly. -/
def Error.render {T : Type} [DebugRepr T] (e : Error T) : String :=
  let head := DebugRepr.debug e.kind ++ ": " ++ e.description ++ " (at " ++ e.file ++ ":" ++
    toString e.line ++ ")"
  match e.sub_error with
  | none => head
  | some s => head ++ "\n  - " ++ s.render

/-- WrappedError.depth counts the nodes of a cause chain (the chain is a
Lean inductive value, so following `sub_error` links terminates by
construction). -/
def WrappedError.depth : WrappedError → Nat
  | .mk _ _ _ _ none => 1
  | .mk _ _ _ _ (some s) => s.depth + 1

/-- Error.causeDepth counts the nodes of a typed error's cause chain. -/
def Error.causeDepth {T : Type} (e : Error T) : Nat :=
  match e.sub_error with
  | none => 0
  | some s => s.depth

/-- Kind is the concrete kind enumeration `{Io, Parse}` of the spec's
scenarios. -/
inductive Kind : Type where
  | Io
  | Parse

/-- The derived `Debug` form of a Rust enum variant is its name. -/
instance : DebugRepr Kind where
  debug
    | .Io => "Io"
    | .Parse => "Parse"

/-- chainOfDepth builds a concrete chain with `n + 1` nodes, every node
carrying the same single-level data. -/
def chainOfDepth : Nat → WrappedError
  | 0 => .mk "K" "d" "f" 0 none
  | n + 1 => .mk "K" "d" "f" 0 (some (chainOfDepth n))

/-- Built e n holds when the typed error `e` was produced purely through the
library's construction and propagation operations, with `n` propagation
steps in total; a cause installed by `propagate_with_kind_desc` or
`propagate_with_kind` is the erasure of an error built through the API
(possibly with a different kind type). -/
inductive Built : {T : Type} → [DebugRepr T] → Error T → Nat → Prop where
  | with_kind_desc {T : Type} [DebugRepr T] (kind : T) (d f : String) (l : Nat) :
      Built (Error.with_kind_desc kind d f l) 0
  | with_kind {T : Type} [DebugRepr T] (kind : T) (f : String) (l : Nat) :
      Built (Error.with_kind kind f l) 0
  | propagate_with_kind_desc {T U : Type} [DebugRepr T] [DebugRepr U] (kind : T) (d : String)
      {p : Error U} {n : Nat} (hp : Built p n) (f : String) (l : Nat) :
      Built (Error.propagate_with_kind_desc kind d (WrappedError.fromError p) f l) (n + 1)
  | propagate_with_kind {T U : Type} [DebugRepr T] [DebugRepr U] (kind : T)
      {p : Error U} {n : Nat} (hp : Built p n) (f : String) (l : Nat) :
      Built (Error.propagate_with_kind kind (WrappedError.fromError p) f l) (n + 1)
  | propagate {T : Type} [DebugRepr T] {p : Error T} {n : Nat} (hp : Built p n)
      (f : String) (l : Nat) :
      Built (Error.propagate p f l) (n + 1)

/-- Erasure turns a typed error's cause chain of depth `d` into a wrapped
chain of `d + 1` nodes: the erased error itself plus its old chain. -/
theorem depth_fromError {T : Type} [DebugRepr T] (e : Error T) :
    (WrappedError.fromError e).depth = e.causeDepth + 1 := by
  obtain ⟨kind, d, f, l, sub⟩ := e
  cases sub <;> rfl

/-- String concatenation is associative (componentwise on the underlying
character lists). -/
theorem string_append_assoc (a b c : String) : a ++ b ++ c = a ++ (b ++ c) := by
  cases a with | mk as =>
  cases b with | mk bs =>
  cases c with | mk cs =>
  show String.mk (as ++ bs ++ cs) = String.mk (as ++ (bs ++ cs))
  rw [List.append_assoc]

/-- Rendering a chain with one more level emits the head's single-level text
followed by the separator and the full rendering of the rest. -/
theorem render_chainOfDepth_succ (n : Nat) :
    (chainOfDepth (n + 1)).render = "K: d (at f:0)\n  - " ++ (chainOfDepth n).render := rfl

/-- chainOfDepth n has exactly n + 1 nodes. -/
theorem depth_chainOfDepth (n : Nat) : (chainOfDepth n).depth = n + 1 := by
  induction n with
  | zero => rfl
  | succ k ih => simpa [chainOfDepth, WrappedError.depth] using ih

/-- newlineCount counts the newline characters of a string: in a rendered
chain each cause level contributes exactly one, through its separator. -/
def newlineCount (s : String) : Nat := s.data.count (Char.ofNat 10)

/-- Newline counting distributes over string concatenation. -/
theorem newlineCount_append (a b : String) :
    newlineCount (a ++ b) = newlineCount a + newlineCount b := by
  cases a with | mk as =>
  cases b with | mk bs =>
  show (as ++ bs).count (Char.ofNat 10) = as.count (Char.ofNat 10) + bs.count (Char.ofNat 10)
  exact List.count_append (Char.ofNat 10) as bs

/-- Rendering the concrete chain with n + 1 levels emits exactly n
separators: every level of the chain appears in the output. -/
theorem newlineCount_render_chain (n : Nat) :
    newlineCount (chainOfDepth n).render = n := by
  induction n with
  | zero => rfl
  | succ k ih =>
    rw [render_chainOfDepth_succ, newlineCount_append, ih,
      show newlineCount "K: d (at f:0)\n  - " = 1 from rfl]
    omega

/-- Rendering a wrapped error with a cause emits the single-level text, the
separator and the complete rendering of the cause. -/
theorem wrapped_render_step (k d f : String) (l : Nat) (s : WrappedError) :
    (WrappedError.mk k d f l (some s)).render =
      (WrappedError.mk k d f l none).render ++ "\n  - " ++ s.render := rfl

/-- Rendering a typed error with a cause emits the single-level text, the
separator and the complete rendering of the cause. -/
theorem error_render_step {T : Type} [DebugRepr T] (kind : T) (d f : String) (l : Nat)
    (s : WrappedError) :
    (Error.mk kind d f l (some s)).render =
      (Error.mk kind d f l none).render ++ "\n  - " ++ s.render := rfl

/-- Claim C1: erasing a typed error (the From conversion in src/lib.rs lines
11-19) keeps the description, the file, the line and the whole cause chain
structurally unchanged, sets kind_repr to the debug-printed form of the
kind, and changes nothing else (the final conjunct pins the erased value
completely). -/
theorem erase_preserves_all_but_kind {T : Type} [DebugRepr T] (e : Error T) :
    (WrappedError.fromError e).description = e.description ∧
    (WrappedError.fromError e).file = e.file ∧
    (WrappedError.fromError e).line = e.line ∧
    (WrappedError.fromError e).sub_error = e.sub_error ∧
    (WrappedError.fromError e).kind_repr = DebugRepr.debug e.kind ∧
    WrappedError.fromError e =
      WrappedError.mk (DebugRepr.debug e.kind) e.description e.file e.line e.sub_error :=
  ⟨rfl, rfl, rfl, rfl, rfl, rfl⟩

/-- Claim C2: Error.propagate (src/lib.rs lines 87-89) reuses the previous
error's kind and description by value, installs the erasure of the previous
error as the cause, and stamps the freshly supplied location. -/
theorem propagate_same_kind_spec {T : Type} [DebugRepr T] (e : Error T) (f : String) (l : Nat) :
    (Error.propagate e f l).kind = e.kind ∧
    (Error.propagate e f l).description = e.description ∧
    (Error.propagate e f l).file = f ∧
    (Error.propagate e f l).line = l ∧
    (Error.propagate e f l).sub_error = some (WrappedError.fromError e) :=
  ⟨rfl, rfl, rfl, rfl, rfl⟩

/-- Claim C3: both constructions without an explicit description
(Error.with_kind, src/lib.rs lines 62-65, and Error.propagate_with_kind,
lines 78-81) set the description to the debug-printed form of the kind,
verbatim. -/
theorem default_description_is_printed_kind {T : Type} [DebugRepr T] (kind : T)
    (sub : WrappedError) (f : String) (l : Nat) :
    (Error.with_kind kind f l).description = DebugRepr.debug kind ∧
    (Error.propagate_with_kind kind sub f l).description = DebugRepr.debug kind :=
  ⟨rfl, rfl⟩

/-- Claim C4: an error with no cause renders to exactly the single-level
text, and the concrete Io example renders to the spec's expected string. -/
theorem render_without_cause {T : Type} [DebugRepr T] (kind : T) (d f : String) (l : Nat) :
    (Error.mk kind d f l none).render =
      DebugRepr.debug kind ++ ": " ++ d ++ " (at " ++ f ++ ":" ++ toString l ++ ")" ∧
    (Error.mk Kind.Io "file missing" "x.rs" 10 none).render = "Io: file missing (at x.rs:10)" :=
  ⟨rfl, rfl⟩

/-- Claim C5: a three-level chain renders as the three single-level texts
joined by newline, two-space indent and a dash-space marker, most recent
first; the concrete Parse-over-Io example renders to the spec's expected
string. -/
theorem render_three_level_chain {T : Type} [DebugRepr T] (ka : T) (da fa : String) (la : Nat)
    (kb db fb : String) (lb : Nat) (kc dc fc : String) (lc : Nat) :
    (Error.mk ka da fa la (some (WrappedError.mk kb db fb lb
        (some (WrappedError.mk kc dc fc lc none))))).render =
      (Error.mk ka da fa la none).render ++ "\n  - " ++
        (WrappedError.mk kb db fb lb none).render ++ "\n  - " ++
        (WrappedError.mk kc dc fc lc none).render ∧
    (Error.mk Kind.Parse "config invalid" "y.rs" 20
        (some (WrappedError.fromError (Error.mk Kind.Io "file missing" "x.rs" 10 none)))).render =
      "Parse: config invalid (at y.rs:20)\n  - Io: file missing (at x.rs:10)" := by
  constructor
  · rw [error_render_step, wrapped_render_step]
    simp only [string_append_assoc]
  · rfl

/-- Claim C6: an error built purely through the construction and propagation
operations, with n propagation steps in total, has a cause chain of exactly
n nodes: following cause links terminates within the number of propagation
steps performed, each propagation adding exactly one link. -/
theorem built_causeDepth {T : Type} [DebugRepr T] {e : Error T} {n : Nat}
    (h : Built e n) : e.causeDepth = n := by
  induction h with
  | with_kind_desc kind d f l => rfl
  | with_kind kind f l => rfl
  | propagate_with_kind_desc kind d hp f l ih =>
    show (WrappedError.fromError _).depth = _ + 1
    rw [depth_fromError, ih]
  | propagate_with_kind kind hp f l ih =>
    show (WrappedError.fromError _).depth = _ + 1
    rw [depth_fromError, ih]
  | propagate hp f l ih =>
    show (WrappedError.fromError _).depth = _ + 1
    rw [depth_fromError, ih]

/-- Witness: a concrete one-step propagation of a fresh Io error has a cause
chain of exactly one node. -/
theorem built_causeDepth_applied :
    (Error.propagate (Error.with_kind Kind.Io "x.rs" 10) "z.rs" 30).causeDepth = 1 :=
  built_causeDepth (Built.propagate (Built.with_kind Kind.Io "x.rs" 10) "z.rs" 30)

/-- Claim C7: every construction and propagation operation returns a brand
new record assembled from its inputs; the pre-existing error installed as
the cause is embedded structurally unchanged (the supplied wrapped error
verbatim, or the erasure of the propagated error, which itself preserves
the old cause chain), so no operation edits an existing value. -/
theorem construction_preserves_preexisting {T : Type} [DebugRepr T] (kind : T) (d : String)
    (sub : WrappedError) (e : Error T) (f : String) (l : Nat) :
    Error.with_kind_desc kind d f l =
      { kind := kind, description := d, file := f, line := l, sub_error := none } ∧
    Error.with_kind kind f l =
      { kind := kind, description := DebugRepr.debug kind, file := f, line := l,
        sub_error := none } ∧
    Error.propagate_with_kind_desc kind d sub f l =
      { kind := kind, description := d, file := f, line := l, sub_error := some sub } ∧
    Error.propagate_with_kind kind sub f l =
      { kind := kind, description := DebugRepr.debug kind, file := f, line := l,
        sub_error := some sub } ∧
    Error.propagate e f l =
      { kind := e.kind, description := e.description, file := f, line := l,
        sub_error := some (WrappedError.fromError e) } ∧
    (WrappedError.fromError e).sub_error = e.sub_error :=
  ⟨rfl, rfl, rfl, rfl, rfl, rfl⟩

/-- Claim C8 counterexample: a chain of 10002 nodes (strictly longer than
the claimed 10,000 bound) renders with no truncation at all: the output
holds one separator per cause level (10001 of them, where an
ellipsis-truncated output would hold far fewer), and rendering recurses
past the bound into the complete rendering of the remaining chain. -/
theorem render_chain_past_limit_untruncated :
    (chainOfDepth 10001).depth = 10002 ∧
    newlineCount (chainOfDepth 10001).render = 10001 ∧
    (chainOfDepth 10001).render = "K: d (at f:0)\n  - " ++ (chainOfDepth 10000).render :=
  ⟨by rw [depth_chainOfDepth], by rw [newlineCount_render_chain],
    render_chainOfDepth_succ 10000⟩

/-- Claim C8 as amended: the Display recursion imposes no maximum depth and
never truncates with an ellipsis: for every n, the concrete chain with
n + 1 nodes renders all of its levels, emitting exactly n separators. -/
theorem render_renders_every_level (n : Nat) :
    (chainOfDepth n).depth = n + 1 ∧ newlineCount (chainOfDepth n).render = n :=
  ⟨depth_chainOfDepth n, newlineCount_render_chain n⟩

/-- Claim C10: erasure preserves rendering: the wrapped form of a typed
error renders to exactly the same string as the typed error itself, since
both print the debug form of the kind followed by identical description,
location and cause text. -/
theorem erase_preserves_render {T : Type} [DebugRepr T] (e : Error T) :
    (WrappedError.fromError e).render = e.render := by
  obtain ⟨kind, d, f, l, sub⟩ := e
  cases sub <;> rfl
